import Mathlib

/-!
# batti: battery status indicator for the system tray

A shallow embedding of `batti.c` and the properties of its property decoding,
tooltip formatting, change handler and child-process slots.

Conventions of the embedding:

* a C string is the list of its bytes before the terminating NUL, each byte
  written as the `Char` of the same code (`gstring`);
* a `gsize` is a natural number taken modulo `2 ^ 64`, a `guint`/`guint32` a
  natural number below `2 ^ 32`;
* a finite `gdouble` is the rational number it denotes;
* code whose behaviour C leaves undefined (a store outside an allocation, a
  conversion whose result is not representable, a variant read at the wrong
  type, a `NULL` variant) returns `none`;
* the status icon records the calls made on it, in order.
-/

namespace Batti

/-! ## Constants of the source -/

/-- A C string without its terminating NUL. -/
abbrev gstring := List Char

/-- The terminating byte of a C string. -/
def NUL : Char := Char.ofNat 0

/-- The macro `#define NOT_SIMBOLIC_ICON "simbolic"`. -/
def NOT_SIMBOLIC_ICON : gstring := "simbolic".toList

/-- The value of `sizeof NOT_SIMBOLIC_ICON`: the size of the string literal, its NUL included. -/
def sizeof_NOT_SIMBOLIC_ICON : Nat := NOT_SIMBOLIC_ICON.length + 1

/-- The macro `#define PROPERTY_ICONNAME "IconName"`. -/
def PROPERTY_ICONNAME : gstring := "IconName".toList

/-- The macro `#define PROPERTY_PERCENTAGE "Percentage"`. -/
def PROPERTY_PERCENTAGE : gstring := "Percentage".toList

/-- The macro `#define PROPERTY_STATE "State"`. -/
def PROPERTY_STATE : gstring := "State".toList

/-- The macro `#define TOOLTIP_TEXT_SIZE 64`. -/
def TOOLTIP_TEXT_SIZE : Nat := 64

/-- The modulus of `gsize` arithmetic. -/
def GSIZE_MOD : Nat := 2 ^ 64

/-- The number of values of a `guint` (and of a `guint32`). -/
def GUINT_MOD : Nat := 2 ^ 32

/-! ## Variants -/

/-- A `gdouble`: a finite value (the rational it denotes), an infinity or a NaN. -/
inductive gdouble where
  | finite (q : ℚ)
  | inf (negative : Bool)
  | nan

/-- A `GVariant` value of the `a{sv}` dictionary: a string, a double, a `guint32`, or
a value of one of the types the program never reads. -/
inductive GVariant where
  | string (s : gstring)
  | double (d : gdouble)
  | uint32 (n : Nat)
  | other

/-! ## Property decoding -/

/-- The call `g_variant_dup_string (value, &length)`: a fresh buffer holding the string and
its NUL, and the length of the string. -/
def g_variant_dup_string (s : gstring) : List Char × Nat :=
  (s ++ [NUL], s.length)

/-- The C string held by a buffer: the bytes before the first NUL. -/
def c_str (buf : List Char) : gstring :=
  buf.takeWhile (fun c => c != NUL)

/-- The icon-name transform of `init` and `on_properties_changed`:
`iconname = g_variant_dup_string (value, &length);`
`iconname[length - sizeof NOT_SIMBOLIC_ICON] = 0;`
The subtraction is `gsize` arithmetic; a store outside the buffer is undefined. -/
def decodeIconName (value : gstring) : Option gstring :=
  let iconname := (g_variant_dup_string value).1
  let length := (g_variant_dup_string value).2
  let i := (length + GSIZE_MOD - sizeof_NOT_SIMBOLIC_ICON) % GSIZE_MOD
  if i < iconname.length then some (c_str (iconname.set i NUL)) else none

/-- The conversion `(guint) d` of a `gdouble`: the fractional part is discarded;
undefined when the integral part is not a `guint`, and for infinities and NaN. -/
def decodePercentage : gdouble → Option Nat
  | .finite q =>
    if -1 < q ∧ q < (GUINT_MOD : ℚ) then some (Int.toNat (Int.tdiv q.num q.den)) else none
  | _ => none

/-- The function `state_to_string`: the label of a UPower state code. -/
def state_to_string (state : Nat) : gstring :=
  match state with
  | 1 => "Charging".toList
  | 2 => "Discharging".toList
  | 3 => "Empty".toList
  | 4 => "Fully charged".toList
  | 5 => "Pending charge".toList
  | 6 => "Pending discharge".toList
  | _ => "Unknown".toList

/-! ## Formatting -/

/-- An argument of `g_sprintf`. -/
inductive Arg where
  | u (n : Nat)
  | s (str : gstring)

/-- The text `printf` produces for a format and its arguments, for the
conversions the program uses: `%u` (decimal digits of an unsigned), `%s` (the
bytes of a string) and `%%`. A conversion without a matching argument is
undefined. -/
def format : List Char → List Arg → Option gstring
  | [], _ => some []
  | '%' :: '%' :: fmt, args => (format fmt args).map (fun r => '%' :: r)
  | '%' :: 'u' :: fmt, Arg.u n :: args => (format fmt args).map (fun r => Nat.toDigits 10 n ++ r)
  | '%' :: 's' :: fmt, Arg.s str :: args => (format fmt args).map (fun r => str ++ r)
  | '%' :: _, _ => none
  | c :: fmt, args => (format fmt args).map (fun r => c :: r)

/-- The call `g_sprintf (buf, fmt, ...)` into a buffer of `size` bytes: the text and its NUL
must fit, a longer text overruns the buffer. -/
def g_sprintf (size : Nat) (fmt : List Char) (args : List Arg) : Option gstring :=
  match format fmt args with
  | some text => if text.length + 1 ≤ size then some text else none
  | none => none

/-- The format of the tooltip. -/
def TOOLTIP_FORMAT : List Char := "%u%% (%s)".toList

/-! ## The applet and the status icon -/

/-- A call on the status icon. -/
inductive Call where
  | set_from_icon_name (icon_name : gstring)
  | set_tooltip_text (text : gstring)
  deriving DecidableEq

/-- The `GtkStatusIcon`: the icon name and the tooltip it shows (none before the
first call), and the calls made on it. -/
structure GtkStatusIcon where
  icon_name : Option gstring
  tooltip_text : Option gstring
  calls : List Call
  deriving DecidableEq

/-- The call `gtk_status_icon_new ()`. -/
def gtk_status_icon_new : GtkStatusIcon :=
  { icon_name := none, tooltip_text := none, calls := [] }

/-- The call `gtk_status_icon_set_from_icon_name (status_icon, icon_name)`. -/
def gtk_status_icon_set_from_icon_name (status_icon : GtkStatusIcon) (icon_name : gstring) :
    GtkStatusIcon :=
  { status_icon with
    icon_name := some icon_name
    calls := status_icon.calls ++ [Call.set_from_icon_name icon_name] }

/-- The call `gtk_status_icon_set_tooltip_text (status_icon, text)`. -/
def gtk_status_icon_set_tooltip_text (status_icon : GtkStatusIcon) (text : gstring) :
    GtkStatusIcon :=
  { status_icon with
    tooltip_text := some text
    calls := status_icon.calls ++ [Call.set_tooltip_text text] }

/-- The type `struct _applet`; `percentage` is a `guint`. -/
structure applet where
  status_icon : GtkStatusIcon
  state_string : gstring
  percentage : Nat
  deriving DecidableEq

/-- The two statements `g_sprintf (tooltip_text, "%u%% (%s)", data->percentage,
data->state_string); gtk_status_icon_set_tooltip_text (data->status_icon, tooltip_text);`
shared by `init` and both tooltip branches of `on_properties_changed`. -/
def push_tooltip (data : applet) : Option applet :=
  match g_sprintf TOOLTIP_TEXT_SIZE TOOLTIP_FORMAT
      [Arg.u data.percentage, Arg.s data.state_string] with
  | some tooltip_text =>
    some { data with
           status_icon := gtk_status_icon_set_tooltip_text data.status_icon tooltip_text }
  | none => none

/-! ## The change handler -/

/-- The body of the loop of `on_properties_changed` for one `{sv}` entry. -/
def on_properties_changed_entry (data : applet) (key : gstring) (value : GVariant) :
    Option applet :=
  if key = PROPERTY_ICONNAME then
    match value with
    | .string s =>
      match decodeIconName s with
      | some iconname =>
        some { data with
               status_icon := gtk_status_icon_set_from_icon_name data.status_icon iconname }
      | none => none
    | _ => none
  else if key = PROPERTY_PERCENTAGE then
    match value with
    | .double d =>
      match decodePercentage d with
      | some p => push_tooltip { data with percentage := p }
      | none => none
    | _ => none
  else if key = PROPERTY_STATE then
    match value with
    | .uint32 state => push_tooltip { data with state_string := state_to_string state }
    | _ => none
  else some data

/-- The handler `on_properties_changed`: the loop over the entries of `changed_properties`, in
the order the iterator yields them. -/
def on_properties_changed : List (gstring × GVariant) → applet → Option applet
  | [], data => some data
  | (key, value) :: rest, data =>
    match on_properties_changed_entry data key value with
    | some data1 => on_properties_changed rest data1
    | none => none

/-! ## Seeding -/

/-- A `GDBusProxy`: the properties it has cached. -/
structure GDBusProxy where
  cached : List (gstring × GVariant)

/-- The call `g_dbus_proxy_get_cached_property (proxy, property_name)`: the cached value, `NULL` when there is none. -/
def g_dbus_proxy_get_cached_property (proxy : GDBusProxy) (property_name : gstring) :
    Option GVariant :=
  (proxy.cached.find? (fun e => e.1 = property_name)).map (fun e => e.2)

/-- The function `init`: `connection` is what `g_dbus_proxy_new_for_bus_sync` returns. The
result is the proxy returned (`NULL` when there is no connection) and the applet. -/
def init (connection : Option GDBusProxy) (data : applet) :
    Option (Option GDBusProxy × applet) :=
  match connection with
  | none => some (none, data)
  | some proxy =>
    match g_dbus_proxy_get_cached_property proxy PROPERTY_ICONNAME with
    | some (.string s) =>
      match decodeIconName s with
      | some iconname =>
        let data1 := { data with
          status_icon := gtk_status_icon_set_from_icon_name data.status_icon iconname }
        match g_dbus_proxy_get_cached_property proxy PROPERTY_PERCENTAGE with
        | some (.double d) =>
          match decodePercentage d with
          | some p =>
            let data2 := { data1 with percentage := p }
            match g_dbus_proxy_get_cached_property proxy PROPERTY_STATE with
            | some (.uint32 state) =>
              match push_tooltip { data2 with state_string := state_to_string state } with
              | some data3 => some (some proxy, data3)
              | none => none
            | _ => none
          | none => none
        | _ => none
      | none => none
    | _ => none

/-! ## Child processes -/

/-- A `GPid`. -/
abbrev GPid := Int

/-- The two `GPid` variables of `main` a callback is handed the address of. -/
inductive PidVar where
  | activate_child_pid
  | popup_child_pid
  deriving DecidableEq

/-- The process state of `main`: the two pid variables, the children started (pid
and argument vector, in order), the child watches added and the pids closed. -/
structure Procs where
  activate_child_pid : GPid
  popup_child_pid : GPid
  spawned : List (GPid × List String)
  watches : List (GPid × PidVar)
  closed : List GPid
  deriving DecidableEq

/-- The read `*pid` -/
def Procs.load (m : Procs) : PidVar → GPid
  | .activate_child_pid => m.activate_child_pid
  | .popup_child_pid => m.popup_child_pid

/-- The store `*pid = v` -/
def Procs.store (m : Procs) (pid : PidVar) (v : GPid) : Procs :=
  match pid with
  | .activate_child_pid => { m with activate_child_pid := v }
  | .popup_child_pid => { m with popup_child_pid := v }

/-- The macro `#define BATTERY "BAT0"`. -/
def BATTERY : String := "BAT0"

/-- The macro `#define DBUS_OBJECT_PATH "/org/freedesktop/UPower/devices/battery_" BATTERY`. -/
def DBUS_OBJECT_PATH : String := "/org/freedesktop/UPower/devices/battery_" ++ BATTERY

/-- The argument vector of `activate_cb`. -/
def activate_argv : List String :=
  ["/usr/bin/x-terminal-emulator", "-title", "upower", "-hold", "-e", "/usr/bin/upower", "-i",
    DBUS_OBJECT_PATH]

/-- The argument vector of `popup_cb`. -/
def popup_argv : List String :=
  ["/usr/bin/x-terminal-emulator", "-title", "upower", "-e", "/usr/bin/upower",
    "--monitor-detail"]

/-- The call `g_spawn_async_with_pipes (NULL, argv, NULL, G_SPAWN_DO_NOT_REAP_CHILD,
NULL, NULL, pid, NULL, NULL, NULL, NULL)`. What the operating system does is the
parameter `outcome`: `some child` when a child is started, its pid is stored in
`*pid` and `TRUE` is returned; `none` when no child is started, `*pid` is left alone
and `FALSE` is returned. -/
def g_spawn_async_with_pipes (outcome : Option GPid) (argv : List String) (pid : PidVar)
    (m : Procs) : Bool × Procs :=
  match outcome with
  | some child => (true, { m.store pid child with spawned := m.spawned ++ [(child, argv)] })
  | none => (false, m)

/-- The call `g_child_watch_add (pid, child_watch_cb, data)`. -/
def g_child_watch_add (pid : GPid) (data : PidVar) (m : Procs) : Procs :=
  { m with watches := m.watches ++ [(pid, data)] }

/-- The callback `activate_cb`; the spawn is called only when `*pid == 0`. -/
def activate_cb (outcome : Option GPid) (pid : PidVar) (m : Procs) : Procs :=
  if m.load pid = 0 then
    match g_spawn_async_with_pipes outcome activate_argv pid m with
    | (true, m1) => g_child_watch_add (m1.load pid) pid m1
    | (false, m1) => m1
  else m

/-- The callback `popup_cb`; the spawn is called only when `*pid == 0`. -/
def popup_cb (outcome : Option GPid) (pid : PidVar) (m : Procs) : Procs :=
  if m.load pid = 0 then
    match g_spawn_async_with_pipes outcome popup_argv pid m with
    | (true, m1) => g_child_watch_add (m1.load pid) pid m1
    | (false, m1) => m1
  else m

/-- The callback `child_watch_cb`: `g_spawn_close_pid (pid); *ppid = 0;`, the
exit status is not read. -/
def child_watch_cb (pid : GPid) (status : Int) (ppid : PidVar) (m : Procs) : Procs :=
  let _ := status
  { m with closed := m.closed ++ [pid] }.store ppid 0


/-! ## Reference definitions and example data -/

/-- The spec's reading of the icon-name transform: `s` with exactly the suffix token
`NOT_SIMBOLIC_ICON` removed from its end. -/
def removeSuffixSpec (s : gstring) : gstring :=
  s.take (s.length - NOT_SIMBOLIC_ICON.length)

/-- The state of `main` when the main loop starts: both slots idle. -/
def Procs.start : Procs :=
  { activate_child_pid := 0, popup_child_pid := 0, spawned := [], watches := [], closed := [] }

/-- The spec's tooltip: the decimal digits of the percentage, `% (`, the label, `)`. -/
def tooltipSpec (percentage : Nat) (label : gstring) : gstring :=
  (Nat.repr percentage).toList ++ "% (".toList ++ label ++ ")".toList

/-- The cached properties of the end-to-end example: icon `battery-full-simbolic`,
percentage 100.0, state 4. -/
def seed_proxy : GDBusProxy :=
  { cached := [(PROPERTY_ICONNAME, GVariant.string "battery-full-simbolic".toList),
      (PROPERTY_PERCENTAGE, GVariant.double (.finite 100)),
      (PROPERTY_STATE, GVariant.uint32 4)] }

/-! ## Lemmas on C strings -/

theorem c_str_append_NUL (s rest : List Char) (h : NUL ∉ s) :
    c_str (s ++ NUL :: rest) = s := by
  induction s with
  | nil => simp [c_str]
  | cons c s ih =>
    have hc : c ≠ NUL := fun e => h (by simp [e])
    have hs : NUL ∉ s := fun e => h (by simp [e])
    have := ih hs
    have hb : (c != NUL) = true := by simpa using hc
    simp only [c_str] at this ⊢
    simp [List.takeWhile, hb, this]

theorem set_take_drop (s : List Char) (i : Nat) (h : i ≤ s.length) :
    (s ++ [NUL]).set i NUL
      = s.take i ++ NUL :: (s.drop (i + 1) ++ (if i < s.length then [NUL] else [])) := by
  induction s generalizing i with
  | nil => simp at h; subst h; simp
  | cons c s ih =>
    cases i with
    | zero => simp
    | succ i =>
      have h1 : i ≤ s.length := by simpa using h
      simp [ih i h1]

theorem decodeIconName_of_le (s : gstring) (hnul : NUL ∉ s)
    (hlen : sizeof_NOT_SIMBOLIC_ICON ≤ s.length) (hmax : s.length < GSIZE_MOD) :
    decodeIconName s = some (s.take (s.length - sizeof_NOT_SIMBOLIC_ICON)) := by
  have hi : (s.length + GSIZE_MOD - sizeof_NOT_SIMBOLIC_ICON) % GSIZE_MOD
      = s.length - sizeof_NOT_SIMBOLIC_ICON := by
    have : s.length + GSIZE_MOD - sizeof_NOT_SIMBOLIC_ICON
        = (s.length - sizeof_NOT_SIMBOLIC_ICON) + GSIZE_MOD := by omega
    rw [this, Nat.add_mod_right, Nat.mod_eq_of_lt (by omega)]
  have hle : s.length - sizeof_NOT_SIMBOLIC_ICON ≤ s.length := Nat.sub_le _ _
  simp only [decodeIconName, g_variant_dup_string, hi]
  rw [if_pos (by simp; omega), set_take_drop s _ hle]
  rw [c_str_append_NUL]
  exact fun hm => hnul (List.mem_of_mem_take hm)

theorem decodeIconName_of_lt (s : gstring) (hlen : s.length < sizeof_NOT_SIMBOLIC_ICON) :
    decodeIconName s = none := by
  have h9 : sizeof_NOT_SIMBOLIC_ICON = 9 := by decide
  have hm : GSIZE_MOD = 18446744073709551616 := by decide
  simp only [decodeIconName, g_variant_dup_string]
  rw [h9] at hlen
  rw [if_neg]
  rw [h9, hm]
  simp only [List.length_append, List.length_singleton]
  omega

/-! ## Icon name -/

/-- C1, as stated, fails: `"battery-full-simbolic"` ends in the suffix token
`"simbolic"` and is longer than it, and the transform returns `"battery-full"`, which
is not the string with exactly the token removed (`"battery-full-"`): the byte before
the token goes too. -/
theorem decodeIconName_removes_more_than_token :
    NOT_SIMBOLIC_ICON <:+ "battery-full-simbolic".toList ∧
    NOT_SIMBOLIC_ICON.length ≤ "battery-full-simbolic".toList.length ∧
    removeSuffixSpec "battery-full-simbolic".toList = "battery-full-".toList ∧
    decodeIconName "battery-full-simbolic".toList = some "battery-full".toList ∧
    decodeIconName "battery-full-simbolic".toList ≠
      some (removeSuffixSpec "battery-full-simbolic".toList) := by
  refine ⟨by decide, by decide, by decide, by decide, by decide⟩

/-- C1, amended: for every NUL-free string `s` of at least `sizeof NOT_SIMBOLIC_ICON`
(9) bytes, the transform returns `s` without its last 9 bytes; so a string made of
`t`, one more byte and the token `"simbolic"` gives `t`, and a string of exactly 9
bytes gives the empty string. -/
theorem decodeIconName_removes_sizeof (s : gstring) (hnul : NUL ∉ s)
    (hlen : sizeof_NOT_SIMBOLIC_ICON ≤ s.length) (hmax : s.length < GSIZE_MOD) :
    decodeIconName s = some (s.take (s.length - sizeof_NOT_SIMBOLIC_ICON)) ∧
    (∀ (t : gstring) (c : Char), s = t ++ c :: NOT_SIMBOLIC_ICON → decodeIconName s = some t) ∧
    (s.length = sizeof_NOT_SIMBOLIC_ICON → decodeIconName s = some []) := by
  have h := decodeIconName_of_le s hnul hlen hmax
  refine ⟨h, ?_, ?_⟩
  · intro t c hs
    rw [h, hs]
    have : (t ++ c :: NOT_SIMBOLIC_ICON).length - sizeof_NOT_SIMBOLIC_ICON = t.length := by
      simp [sizeof_NOT_SIMBOLIC_ICON]
    rw [this, List.take_left']
    rfl
  · intro he
    rw [h, he]
    simp

/-- The amended C1 at `"battery-full-simbolic"` (21 bytes), where the result is
`"battery-full"`, and at `"-simbolic"` (9 bytes), where it is the empty string. -/
theorem decodeIconName_removes_sizeof_witness :
    NUL ∉ "battery-full-simbolic".toList ∧
    sizeof_NOT_SIMBOLIC_ICON ≤ "battery-full-simbolic".toList.length ∧
    "battery-full-simbolic".toList.length < GSIZE_MOD ∧
    "battery-full-simbolic".toList = "battery-full".toList ++ '-' :: NOT_SIMBOLIC_ICON ∧
    decodeIconName "battery-full-simbolic".toList =
      some ("battery-full-simbolic".toList.take
        ("battery-full-simbolic".toList.length - sizeof_NOT_SIMBOLIC_ICON)) ∧
    decodeIconName "battery-full-simbolic".toList = some "battery-full".toList ∧
    "-simbolic".toList.length = sizeof_NOT_SIMBOLIC_ICON ∧
    decodeIconName "-simbolic".toList = some [] :=
  ⟨by decide, by decide, by decide, by decide,
    (decodeIconName_removes_sizeof "battery-full-simbolic".toList
      (by decide) (by decide) (by decide)).1,
    (decodeIconName_removes_sizeof "battery-full-simbolic".toList
      (by decide) (by decide) (by decide)).2.1 "battery-full".toList '-' (by decide),
    by decide,
    (decodeIconName_removes_sizeof "-simbolic".toList
      (by decide) (by decide) (by decide)).2.2 (by decide)⟩

/-- C2 fails on the code: for the empty icon name the buffer has one byte (the NUL)
and the index `length - sizeof NOT_SIMBOLIC_ICON` wraps to `2 ^ 64 - 9`, so the store
is outside the buffer and no icon name results; the same holds for `"full"` and
for the token `"simbolic"` itself (8 bytes). -/
theorem decodeIconName_short_out_of_bounds :
    (g_variant_dup_string []).1.length = 1 ∧
    ((g_variant_dup_string []).2 + GSIZE_MOD - sizeof_NOT_SIMBOLIC_ICON) % GSIZE_MOD
      = 18446744073709551607 ∧
    decodeIconName [] = none ∧
    decodeIconName "full".toList = none ∧
    decodeIconName NOT_SIMBOLIC_ICON = none := by
  refine ⟨by decide, by decide, by decide, by decide, by decide⟩

/-! ## State label -/

/-- C3: `state_to_string` returns the label of each code 0..6 and `Unknown` for every
other code. -/
theorem state_to_string_labels :
    state_to_string 0 = "Unknown".toList ∧
    state_to_string 1 = "Charging".toList ∧
    state_to_string 2 = "Discharging".toList ∧
    state_to_string 3 = "Empty".toList ∧
    state_to_string 4 = "Fully charged".toList ∧
    state_to_string 5 = "Pending charge".toList ∧
    state_to_string 6 = "Pending discharge".toList ∧
    ∀ state : Nat, 6 < state → state_to_string state = "Unknown".toList := by
  refine ⟨rfl, rfl, rfl, rfl, rfl, rfl, rfl, ?_⟩
  intro state h
  match state, h with
  | n + 7, _ => rfl

/-- C3 at the largest `guint32`: the label is `Unknown`. -/
theorem state_to_string_labels_witness :
    6 < 4294967295 ∧ state_to_string 4294967295 = "Unknown".toList :=
  ⟨by decide, state_to_string_labels.2.2.2.2.2.2.2 4294967295 (by decide)⟩

/-! ## Percentage -/

theorem decodePercentage_of_nonneg (q : ℚ) (h0 : 0 ≤ q) (hlt : ⌊q⌋₊ < GUINT_MOD) :
    decodePercentage (.finite q) = some ⌊q⌋₊ := by
  have hq : q < (GUINT_MOD : ℚ) := by
    have := (Nat.floor_lt h0).1 hlt
    exact_mod_cast this
  have hnum : 0 ≤ q.num := Rat.num_nonneg.2 h0
  have hfl : Int.tdiv q.num q.den = ⌊q⌋ := by
    rw [Int.tdiv_eq_ediv hnum (Int.ofNat_nonneg _), Rat.floor_def]
  simp only [decodePercentage]
  rw [if_pos ⟨by linarith, hq⟩, hfl]
  rfl

theorem decodePercentage_lt (d : gdouble) (p : Nat) (h : decodePercentage d = some p) :
    p < GUINT_MOD := by
  cases d with
  | finite q =>
    simp only [decodePercentage] at h
    split at h
    · rename_i hq
      injection h with h
      subst h
      by_cases h0 : 0 ≤ q
      · have hnum : 0 ≤ q.num := Rat.num_nonneg.2 h0
        rw [Int.tdiv_eq_ediv hnum (Int.ofNat_nonneg _), ← Rat.floor_def]
        have : (⌊q⌋.toNat : ℚ) < GUINT_MOD := by
          have h1 : ((⌊q⌋.toNat : ℤ) : ℚ) = ⌊q⌋ := by
            rw [Int.toNat_of_nonneg (Int.floor_nonneg.2 h0)]
          have h2 : (⌊q⌋ : ℚ) ≤ q := Int.floor_le q
          have h3 : ((⌊q⌋.toNat : ℤ) : ℚ) = (⌊q⌋.toNat : ℚ) := by push_cast; rfl
          linarith [hq.2]
        exact_mod_cast this
      · have hnum : q.num < 0 := Rat.num_neg.2 (not_le.1 h0)
        have : Int.tdiv q.num q.den ≤ 0 := by
          have h1 := Int.neg_tdiv (-q.num) q.den
          rw [neg_neg] at h1
          have h2 : 0 ≤ (-q.num).tdiv q.den :=
            Int.tdiv_nonneg (by omega) (Int.ofNat_nonneg _)
          omega
        rw [Int.toNat_eq_zero.2 this]
        decide
    · exact absurd h (by simp)
  | inf n => simp [decodePercentage] at h
  | nan => simp [decodePercentage] at h

/-- C9: the conversion of the `Percentage` double is the integer part of every
non-negative value whose integer part is a `guint`, with no clamping: 87.9 (the
decimal and the double nearest to it) gives 87, 0.0 gives 0, 150.5 gives 150 and
4294967295.5 gives 4294967295; a value between -1 and 0 gives 0. -/
theorem decodePercentage_truncates :
    (∀ q : ℚ, 0 ≤ q → ⌊q⌋₊ < GUINT_MOD → decodePercentage (.finite q) = some ⌊q⌋₊) ∧
    decodePercentage (.finite (879 / 10)) = some 87 ∧
    decodePercentage (.finite (3092706306608333 / 35184372088832)) = some 87 ∧
    decodePercentage (.finite 0) = some 0 ∧
    decodePercentage (.finite (1505 / 10)) = some 150 ∧
    decodePercentage (.finite (8589934591 / 2)) = some 4294967295 ∧
    decodePercentage (.finite (-1 / 2)) = some 0 := by
  refine ⟨decodePercentage_of_nonneg, ?_, ?_, ?_, ?_, ?_, ?_⟩
  · simp [decodePercentage, GUINT_MOD]; norm_num; decide
  · simp [decodePercentage, GUINT_MOD]; norm_num; decide
  · simp [decodePercentage, GUINT_MOD]
  · simp [decodePercentage, GUINT_MOD]; norm_num; decide
  · simp [decodePercentage, GUINT_MOD]; norm_num; decide
  · simp [decodePercentage, GUINT_MOD]; norm_num; decide

/-- C9 at 87.9: its integer part 87 is returned. -/
theorem decodePercentage_truncates_witness :
    (0 : ℚ) ≤ 879 / 10 ∧ ⌊(879 / 10 : ℚ)⌋₊ < GUINT_MOD ∧
    decodePercentage (.finite (879 / 10)) = some ⌊(879 / 10 : ℚ)⌋₊ :=
  have h0 : (0 : ℚ) ≤ 879 / 10 := by norm_num
  have hf : ⌊(879 / 10 : ℚ)⌋₊ = 87 := by
    rw [Nat.floor_eq_iff h0]; norm_num
  have hlt : ⌊(879 / 10 : ℚ)⌋₊ < GUINT_MOD := by rw [hf]; decide
  ⟨h0, hlt, decodePercentage_truncates.1 (879 / 10) h0 hlt⟩

/-! ## Child processes -/

/-- C4: from an idle slot (`*pid == 0`) and a spawn that succeeds, a trigger of
`activate_cb` or `popup_cb` starts one child and stores its pid; a second trigger,
whatever the spawn would do, changes nothing, so two triggers start exactly one
child. A trigger of a running slot (`*pid != 0`) is a no-op. -/
theorem trigger_twice_spawns_once :
    (∀ (m : Procs) (pid : PidVar) (child : GPid) (outcome2 : Option GPid),
      m.load pid = 0 → child ≠ 0 →
      (activate_cb (some child) pid m).spawned = m.spawned ++ [(child, activate_argv)] ∧
      (activate_cb (some child) pid m).load pid = child ∧
      activate_cb outcome2 pid (activate_cb (some child) pid m)
        = activate_cb (some child) pid m ∧
      (activate_cb outcome2 pid (activate_cb (some child) pid m)).spawned.length
        = m.spawned.length + 1) ∧
    (∀ (m : Procs) (pid : PidVar) (child : GPid) (outcome2 : Option GPid),
      m.load pid = 0 → child ≠ 0 →
      (popup_cb (some child) pid m).spawned = m.spawned ++ [(child, popup_argv)] ∧
      (popup_cb (some child) pid m).load pid = child ∧
      popup_cb outcome2 pid (popup_cb (some child) pid m) = popup_cb (some child) pid m ∧
      (popup_cb outcome2 pid (popup_cb (some child) pid m)).spawned.length
        = m.spawned.length + 1) ∧
    (∀ (m : Procs) (pid : PidVar) (outcome : Option GPid), m.load pid ≠ 0 →
      activate_cb outcome pid m = m ∧ popup_cb outcome pid m = m) := by
  refine ⟨?_, ?_, ?_⟩
  · intro m pid child outcome2 h0 hc
    have h1 : (activate_cb (some child) pid m).load pid = child := by
      cases pid <;>
        (simp only [Procs.load] at h0
         simp [activate_cb, h0, g_spawn_async_with_pipes, g_child_watch_add, Procs.load, Procs.store])
    have h2 : (activate_cb (some child) pid m).spawned = m.spawned ++ [(child, activate_argv)] := by
      cases pid <;>
        (simp only [Procs.load] at h0
         simp [activate_cb, h0, g_spawn_async_with_pipes, g_child_watch_add, Procs.load, Procs.store])
    have h3 : activate_cb outcome2 pid (activate_cb (some child) pid m)
        = activate_cb (some child) pid m := by
      generalize activate_cb (some child) pid m = m1 at h1 ⊢
      simp [activate_cb, h1, hc]
    refine ⟨h2, h1, h3, ?_⟩
    rw [h3, h2]; simp
  · intro m pid child outcome2 h0 hc
    have h1 : (popup_cb (some child) pid m).load pid = child := by
      cases pid <;>
        (simp only [Procs.load] at h0
         simp [popup_cb, h0, g_spawn_async_with_pipes, g_child_watch_add, Procs.load, Procs.store])
    have h2 : (popup_cb (some child) pid m).spawned = m.spawned ++ [(child, popup_argv)] := by
      cases pid <;>
        (simp only [Procs.load] at h0
         simp [popup_cb, h0, g_spawn_async_with_pipes, g_child_watch_add, Procs.load, Procs.store])
    have h3 : popup_cb outcome2 pid (popup_cb (some child) pid m)
        = popup_cb (some child) pid m := by
      generalize popup_cb (some child) pid m = m1 at h1 ⊢
      simp [popup_cb, h1, hc]
    refine ⟨h2, h1, h3, ?_⟩
    rw [h3, h2]; simp
  · intro m pid outcome h
    simp [activate_cb, popup_cb, h]

/-- C4 from the start state of `main`: on either slot, two triggers with spawns that
would give the children 4711 and 4712 start the child 4711 only, and the second
trigger finds the slot running and changes nothing. -/
theorem trigger_twice_spawns_once_witness :
    Procs.start.load .activate_child_pid = 0 ∧ Procs.start.load .popup_child_pid = 0 ∧
    (4711 : GPid) ≠ 0 ∧
    (activate_cb (some 4712) .activate_child_pid
      (activate_cb (some 4711) .activate_child_pid Procs.start)).spawned.length
      = Procs.start.spawned.length + 1 ∧
    (popup_cb (some 4712) .popup_child_pid
      (popup_cb (some 4711) .popup_child_pid Procs.start)).spawned.length
      = Procs.start.spawned.length + 1 ∧
    (activate_cb (some 4711) .activate_child_pid Procs.start).load .activate_child_pid ≠ 0 ∧
    activate_cb (some 4712) .activate_child_pid
      (activate_cb (some 4711) .activate_child_pid Procs.start)
      = activate_cb (some 4711) .activate_child_pid Procs.start :=
  ⟨by decide, by decide, by decide,
    (trigger_twice_spawns_once.1 Procs.start .activate_child_pid 4711 (some 4712)
      (by decide) (by decide)).2.2.2,
    (trigger_twice_spawns_once.2.1 Procs.start .popup_child_pid 4711 (some 4712)
      (by decide) (by decide)).2.2.2,
    by decide,
    (trigger_twice_spawns_once.2.2 (activate_cb (some 4711) .activate_child_pid Procs.start)
      .activate_child_pid (some 4712) (by decide)).1⟩

/-- C5: for every exit status `child_watch_cb` closes the pid, starts nothing and
leaves the slot idle (`*ppid == 0`); the next trigger of `activate_cb` or
`popup_cb` on that slot, with a spawn that succeeds, starts exactly one child
and the slot holds its pid. -/
theorem child_exit_then_trigger (m : Procs) (ppid : PidVar) (pid : GPid) (status : Int)
    (child : GPid) (hchild : child ≠ 0) :
    (child_watch_cb pid status ppid m).load ppid = 0 ∧
    (child_watch_cb pid status ppid m).spawned = m.spawned ∧
    (activate_cb (some child) ppid (child_watch_cb pid status ppid m)).spawned
      = m.spawned ++ [(child, activate_argv)] ∧
    (activate_cb (some child) ppid (child_watch_cb pid status ppid m)).load ppid = child ∧
    (activate_cb (some child) ppid (child_watch_cb pid status ppid m)).load ppid ≠ 0 ∧
    (popup_cb (some child) ppid (child_watch_cb pid status ppid m)).spawned
      = m.spawned ++ [(child, popup_argv)] ∧
    (popup_cb (some child) ppid (child_watch_cb pid status ppid m)).load ppid = child ∧
    (popup_cb (some child) ppid (child_watch_cb pid status ppid m)).load ppid ≠ 0 := by
  cases ppid <;>
    simp [child_watch_cb, activate_cb, popup_cb, g_spawn_async_with_pipes, g_child_watch_add,
      Procs.load, Procs.store, hchild]

/-- C5 on the slot of `activate_cb` running child 4711 that exits with status 256:
the slot is idle and the next click starts child 4712. -/
theorem child_exit_then_trigger_witness :
    (4712 : GPid) ≠ 0 ∧
    (child_watch_cb 4711 256 .activate_child_pid
      (activate_cb (some 4711) .activate_child_pid Procs.start)).load .activate_child_pid = 0 ∧
    (activate_cb (some 4712) .activate_child_pid
      (child_watch_cb 4711 256 .activate_child_pid
        (activate_cb (some 4711) .activate_child_pid Procs.start))).load .activate_child_pid
      = 4712 :=
  have h := child_exit_then_trigger (activate_cb (some 4711) .activate_child_pid Procs.start)
    .activate_child_pid 4711 256 4712 (by decide)
  ⟨by decide, h.1, h.2.2.2.1⟩

/-! ## Tooltip -/

theorem format_tooltip (p : Nat) (l : gstring) :
    format TOOLTIP_FORMAT [Arg.u p, Arg.s l] = some (tooltipSpec p l) := by
  simp [format, TOOLTIP_FORMAT, tooltipSpec, Nat.repr, List.asString]

theorem toDigits_length (p : Nat) (h : p < GUINT_MOD) : (Nat.repr p).toList.length ≤ 10 := by
  have h10 : p < 10 ^ 10 := lt_trans h (by decide)
  exact Nat.repr_length p 10 (by decide) h10

theorem state_to_string_length (state : Nat) : (state_to_string state).length ≤ 17 := by
  unfold state_to_string
  split <;> decide

theorem tooltipSpec_length (p state : Nat) (h : p < GUINT_MOD) :
    (tooltipSpec p (state_to_string state)).length ≤ 31 := by
  have h1 := toDigits_length p h
  have h2 := state_to_string_length state
  simp only [tooltipSpec, List.length_append] at *
  have h3 : "% (".toList.length = 3 := by decide
  have h4 : ")".toList.length = 1 := by decide
  omega

theorem push_tooltip_of_some (data data1 : applet) (h : push_tooltip data = some data1) :
    data1 = { data with
      status_icon := gtk_status_icon_set_tooltip_text data.status_icon
        (tooltipSpec data.percentage data.state_string) } := by
  simp only [push_tooltip, g_sprintf, format_tooltip] at h
  split at h
  · rename_i t ht
    split at ht
    · injection ht with ht
      injection h with h
      rw [← h, ← ht]
    · exact absurd ht (by simp)
  · exact absurd h (by simp)

theorem push_tooltip_of_label (data : applet) (state : Nat) (hp : data.percentage < GUINT_MOD)
    (hl : data.state_string = state_to_string state) :
    push_tooltip data = some { data with
      status_icon := gtk_status_icon_set_tooltip_text data.status_icon
        (tooltipSpec data.percentage data.state_string) } := by
  have hlen := tooltipSpec_length data.percentage state hp
  rw [← hl] at hlen
  have : (tooltipSpec data.percentage data.state_string).length + 1 ≤ TOOLTIP_TEXT_SIZE := by
    have : TOOLTIP_TEXT_SIZE = 64 := rfl
    omega
  simp [push_tooltip, g_sprintf, format_tooltip, this]

/-- C10: for every percentage below `2 ^ 32` and every label of `state_to_string` the
formatted tooltip has at most 31 bytes, so with its NUL it fits the
`TOOLTIP_TEXT_SIZE` bytes of the buffer and `g_sprintf` writes it. -/
theorem tooltip_fits_buffer (p state : Nat) (hp : p < GUINT_MOD) :
    ∃ text, format TOOLTIP_FORMAT [Arg.u p, Arg.s (state_to_string state)] = some text ∧
      text.length ≤ 31 ∧ text.length + 1 ≤ TOOLTIP_TEXT_SIZE ∧
      g_sprintf TOOLTIP_TEXT_SIZE TOOLTIP_FORMAT [Arg.u p, Arg.s (state_to_string state)]
        = some text := by
  have hlen := tooltipSpec_length p state hp
  have h64 : (tooltipSpec p (state_to_string state)).length + 1 ≤ TOOLTIP_TEXT_SIZE := by
    have : TOOLTIP_TEXT_SIZE = 64 := rfl
    omega
  exact ⟨_, format_tooltip p _, hlen, h64, by simp [g_sprintf, format_tooltip, h64]⟩

/-- C10 at the longest tooltip, percentage `2 ^ 32 - 1` and state 6: 31 bytes. -/
theorem tooltip_fits_buffer_witness :
    4294967295 < GUINT_MOD ∧
    (∃ text, format TOOLTIP_FORMAT [Arg.u 4294967295, Arg.s (state_to_string 6)] = some text ∧
      text.length ≤ 31 ∧ text.length + 1 ≤ TOOLTIP_TEXT_SIZE ∧
      g_sprintf TOOLTIP_TEXT_SIZE TOOLTIP_FORMAT [Arg.u 4294967295, Arg.s (state_to_string 6)]
        = some text) ∧
    format TOOLTIP_FORMAT [Arg.u 4294967295, Arg.s (state_to_string 6)]
      = some "4294967295% (Pending discharge)".toList ∧
    "4294967295% (Pending discharge)".toList.length = 31 :=
  ⟨by decide, tooltip_fits_buffer 4294967295 6 (by decide), by decide, by decide⟩

/-! ## The change handler -/

/-- C6: a batch none of whose keys is `IconName`, `Percentage` or `State` (the
empty batch too) leaves the applet as it is: percentage, label, icon, tooltip and the
list of calls on the status icon. -/
theorem unrecognized_batch_is_noop (batch : List (gstring × GVariant)) (data : applet)
    (h : ∀ e ∈ batch, e.1 ≠ PROPERTY_ICONNAME ∧ e.1 ≠ PROPERTY_PERCENTAGE ∧
      e.1 ≠ PROPERTY_STATE) :
    on_properties_changed batch data = some data := by
  induction batch with
  | nil => rfl
  | cons e rest ih =>
    obtain ⟨key, value⟩ := e
    have he := h (key, value) (by simp)
    have hrest := ih (fun e he => h e (by simp [he]))
    simp only [on_properties_changed, on_properties_changed_entry, if_neg he.1, if_neg he.2.1,
      if_neg he.2.2]
    exact hrest

/-- C6 on a batch holding the keys `Energy` (a double) and `TimeToEmpty` (an `int64`)
only. -/
theorem unrecognized_batch_is_noop_witness :
    (∀ e ∈ [("Energy".toList, GVariant.double (.finite 31)),
        ("TimeToEmpty".toList, GVariant.other)],
      e.1 ≠ PROPERTY_ICONNAME ∧ e.1 ≠ PROPERTY_PERCENTAGE ∧ e.1 ≠ PROPERTY_STATE) ∧
    on_properties_changed
      [("Energy".toList, GVariant.double (.finite 31)),
        ("TimeToEmpty".toList, GVariant.other)]
      { status_icon := gtk_status_icon_new, state_string := "Charging".toList, percentage := 7 }
      = some
      { status_icon := gtk_status_icon_new, state_string := "Charging".toList, percentage := 7 } :=
  have h : ∀ e ∈ [("Energy".toList, GVariant.double (.finite 31)),
        ("TimeToEmpty".toList, GVariant.other)],
      e.1 ≠ PROPERTY_ICONNAME ∧ e.1 ≠ PROPERTY_PERCENTAGE ∧ e.1 ≠ PROPERTY_STATE := by
    intro e he
    simp only [List.mem_cons, List.mem_singleton, List.not_mem_nil, or_false] at he
    rcases he with rfl | rfl <;> decide
  ⟨h, unrecognized_batch_is_noop _ _ h⟩

theorem on_properties_changed_append (pre post : List (gstring × GVariant)) (data : applet) :
    on_properties_changed (pre ++ post) data
      = (on_properties_changed pre data).bind (on_properties_changed post) := by
  induction pre generalizing data with
  | nil => rfl
  | cons e pre ih =>
    obtain ⟨key, value⟩ := e
    simp only [List.cons_append, on_properties_changed]
    cases on_properties_changed_entry data key value with
    | none => rfl
    | some d => exact ih d

theorem entry_calls (d0 d1 : applet) (key : gstring) (value : GVariant)
    (h : on_properties_changed_entry d0 key value = some d1) :
    ∃ new, d1.status_icon.calls = d0.status_icon.calls ++ new ∧ new.length ≤ 1 ∧
      ∀ t, Call.set_tooltip_text t ∈ new → t = tooltipSpec d1.percentage d1.state_string := by
  unfold on_properties_changed_entry at h
  split_ifs at h with h1 h2 h3
  · cases value with
    | string s =>
      simp only at h
      cases hd : decodeIconName s with
      | none => simp [hd] at h
      | some iconname =>
        simp only [hd, Option.some.injEq] at h
        subst h
        exact ⟨[Call.set_from_icon_name iconname], rfl, by simp, by simp⟩
    | double d => simp at h
    | uint32 n => simp at h
    | other => simp at h
  · cases value with
    | string s => simp at h
    | double d =>
      simp only at h
      cases hd : decodePercentage d with
      | none => simp [hd] at h
      | some p =>
        simp only [hd] at h
        have := push_tooltip_of_some _ _ h
        subst this
        exact ⟨[Call.set_tooltip_text (tooltipSpec p d0.state_string)], rfl, by simp,
          by simp⟩
    | uint32 n => simp at h
    | other => simp at h
  · cases value with
    | string s => simp at h
    | double d => simp at h
    | other => simp at h
    | uint32 n =>
      simp only at h
      have := push_tooltip_of_some _ _ h
      subst this
      exact ⟨[Call.set_tooltip_text (tooltipSpec d0.percentage (state_to_string n))], rfl,
        by simp, by simp⟩
  · injection h with h
    subst h
    exact ⟨[], by simp, by simp, by simp⟩

theorem init_seeded (connection : Option GDBusProxy) (data data1 : applet) (proxy : GDBusProxy)
    (h : init connection data = some (some proxy, data1)) :
    ∃ iconname state,
      data1.status_icon.calls = data.status_icon.calls ++
        [Call.set_from_icon_name iconname,
          Call.set_tooltip_text (tooltipSpec data1.percentage data1.state_string)] ∧
      data1.state_string = state_to_string state ∧ data1.percentage < GUINT_MOD := by
  unfold init at h
  cases connection with
  | none => simp at h
  | some px =>
    simp only at h
    split at h
    · rename_i s hs
      split at h
      · rename_i iconname hi
        split at h
        · rename_i d hd
          split at h
          · rename_i p hp
            split at h
            · rename_i state hst
              split at h
              · rename_i data3 h3
                have := push_tooltip_of_some _ _ h3
                simp only [Option.some.injEq, Prod.mk.injEq] at h
                obtain ⟨-, h⟩ := h
                subst h
                subst this
                refine ⟨iconname, state, ?_, rfl, decodePercentage_lt d p hp⟩
                simp [gtk_status_icon_set_tooltip_text, gtk_status_icon_set_from_icon_name]
              · simp at h
            · simp at h
          · simp at h
        · simp at h
      · simp at h
    · simp at h

theorem percentage_entry (data : applet) (state : Nat) (d : gdouble) (p : Nat)
    (hl : data.state_string = state_to_string state) (hd : decodePercentage d = some p) :
    on_properties_changed [(PROPERTY_PERCENTAGE, GVariant.double d)] data
      = some { data with
          percentage := p
          status_icon := gtk_status_icon_set_tooltip_text data.status_icon
            (tooltipSpec p data.state_string) } := by
  have hne : PROPERTY_PERCENTAGE ≠ PROPERTY_ICONNAME := by decide
  have hp := push_tooltip_of_label { data with percentage := p } state
    (decodePercentage_lt d p hd) hl
  simp only [on_properties_changed, on_properties_changed_entry, if_neg hne, if_true, hd, hp]

theorem decodePercentage_100 : decodePercentage (.finite 100) = some 100 := by
  simp [decodePercentage, GUINT_MOD]
  norm_num

theorem decodePercentage_55 : decodePercentage (.finite 55) = some 55 := by
  simp [decodePercentage, GUINT_MOD]
  norm_num

theorem init_seed_proxy (data : applet) :
    init (some seed_proxy) data = some (some seed_proxy,
      { status_icon := gtk_status_icon_set_tooltip_text
          (gtk_status_icon_set_from_icon_name data.status_icon "battery-full".toList)
          "100% (Fully charged)".toList
        state_string := "Fully charged".toList
        percentage := 100 }) := by
  have h1 : g_dbus_proxy_get_cached_property seed_proxy PROPERTY_ICONNAME
      = some (GVariant.string "battery-full-simbolic".toList) := rfl
  have h2 : g_dbus_proxy_get_cached_property seed_proxy PROPERTY_PERCENTAGE
      = some (GVariant.double (.finite 100)) := rfl
  have h3 : g_dbus_proxy_get_cached_property seed_proxy PROPERTY_STATE
      = some (GVariant.uint32 4) := rfl
  have h4 : decodeIconName "battery-full-simbolic".toList = some "battery-full".toList := by
    decide
  have h5 := push_tooltip_of_label
    { status_icon := gtk_status_icon_set_from_icon_name data.status_icon "battery-full".toList
      state_string := state_to_string 4
      percentage := 100 } 4 (by show 100 < GUINT_MOD; decide) rfl
  have h6 : tooltipSpec 100 (state_to_string 4) = "100% (Fully charged)".toList := by decide
  simp only [h6] at h5
  simp only [init, h1, h2, h3, h4, decodePercentage_100, h5]
  rfl

/-- C7: every tooltip handed to the status icon is the decimal digits of the stored
percentage, `% (`, the stored label and `)`. `init` makes two calls, the icon and
then this tooltip of the percentage and label it stored; at every entry of a batch
`on_properties_changed` makes at most one call, and a tooltip it sets is the
tooltip of the percentage and label stored once that entry is applied. For 42 and
`Discharging` the text is `42% (Discharging)`. -/
theorem tooltip_is_percentage_and_label :
    (∀ (connection : Option GDBusProxy) (data data1 : applet) (proxy : GDBusProxy),
      init connection data = some (some proxy, data1) →
      ∃ iconname, data1.status_icon.calls = data.status_icon.calls ++
        [Call.set_from_icon_name iconname,
          Call.set_tooltip_text
            ((Nat.repr data1.percentage).toList ++ "% (".toList ++ data1.state_string
              ++ ")".toList)]) ∧
    (∀ (pre post : List (gstring × GVariant)) (key : gstring) (value : GVariant)
      (data data2 : applet),
      on_properties_changed (pre ++ (key, value) :: post) data = some data2 →
      ∃ d0 d1 new, on_properties_changed pre data = some d0 ∧
        on_properties_changed_entry d0 key value = some d1 ∧
        on_properties_changed post d1 = some data2 ∧
        d1.status_icon.calls = d0.status_icon.calls ++ new ∧ new.length ≤ 1 ∧
        ∀ t, Call.set_tooltip_text t ∈ new →
          t = (Nat.repr d1.percentage).toList ++ "% (".toList ++ d1.state_string
            ++ ")".toList) ∧
    g_sprintf TOOLTIP_TEXT_SIZE TOOLTIP_FORMAT [Arg.u 42, Arg.s (state_to_string 2)]
      = some "42% (Discharging)".toList := by
  refine ⟨?_, ?_, by decide⟩
  · intro connection data data1 proxy h
    obtain ⟨iconname, _, hc, -, -⟩ := init_seeded connection data data1 proxy h
    exact ⟨iconname, hc⟩
  · intro pre post key value data data2 h
    rw [on_properties_changed_append] at h
    cases h0 : on_properties_changed pre data with
    | none => simp [h0] at h
    | some d0 =>
      simp only [h0, Option.some_bind, on_properties_changed] at h
      cases h1 : on_properties_changed_entry d0 key value with
      | none => simp [h1] at h
      | some d1 =>
        simp only [h1] at h
        obtain ⟨new, hn, hlen, ht⟩ := entry_calls d0 d1 key value h1
        exact ⟨d0, d1, new, rfl, h1, h, hn, hlen, ht⟩

/-- C7 on the batch `State: 2` applied to percentage 42 and label `Unknown`: the one
call is the tooltip `42% (Discharging)`; and on the example seed, whose two calls are
the icon and the tooltip of 100 and `Fully charged`. -/
theorem tooltip_is_percentage_and_label_witness :
    on_properties_changed ([] ++ (PROPERTY_STATE, GVariant.uint32 2) :: [])
      { status_icon := gtk_status_icon_new, state_string := state_to_string 0, percentage := 42 }
      = some
      { status_icon := gtk_status_icon_set_tooltip_text gtk_status_icon_new
          "42% (Discharging)".toList
        state_string := "Discharging".toList, percentage := 42 } ∧
    (∃ d0 d1 new,
      on_properties_changed []
        { status_icon := gtk_status_icon_new, state_string := state_to_string 0,
          percentage := 42 } = some d0 ∧
      on_properties_changed_entry d0 PROPERTY_STATE (GVariant.uint32 2) = some d1 ∧
      on_properties_changed [] d1 = some
        { status_icon := gtk_status_icon_set_tooltip_text gtk_status_icon_new
            "42% (Discharging)".toList
          state_string := "Discharging".toList, percentage := 42 } ∧
      d1.status_icon.calls = d0.status_icon.calls ++ new ∧ new.length ≤ 1 ∧
      ∀ t, Call.set_tooltip_text t ∈ new →
        t = (Nat.repr d1.percentage).toList ++ "% (".toList ++ d1.state_string ++ ")".toList) ∧
    (∃ iconname,
      (gtk_status_icon_set_tooltip_text
        (gtk_status_icon_set_from_icon_name gtk_status_icon_new "battery-full".toList)
        "100% (Fully charged)".toList).calls = gtk_status_icon_new.calls ++
        [Call.set_from_icon_name iconname,
          Call.set_tooltip_text
            ((Nat.repr 100).toList ++ "% (".toList ++ "Fully charged".toList ++ ")".toList)]) :=
  ⟨by decide,
    tooltip_is_percentage_and_label.2.1 [] [] PROPERTY_STATE (GVariant.uint32 2) _ _
      (by decide),
    tooltip_is_percentage_and_label.1 (some seed_proxy)
      { status_icon := gtk_status_icon_new, state_string := [], percentage := 0 } _ seed_proxy
      (init_seed_proxy _)⟩

/-- C8: seeding with icon `battery-full-simbolic`, percentage 100.0 and state 4 sets
the icon `battery-full` and then the tooltip `100% (Fully charged)`; the batch
`Percentage: 55.0` applied to the seeded applet makes one call, the tooltip
`55% (Fully charged)`, and keeps label and icon. For every applet seeded by `init`
and every `Percentage` value the conversion is defined on, the batch holding that
entry alone makes one call, the tooltip of the new percentage and the old label, and
keeps label and icon. -/
theorem seed_then_percentage_change :
    (∀ data : applet, ∃ data1 data2,
      init (some seed_proxy) data = some (some seed_proxy, data1) ∧
      data1.status_icon.calls = data.status_icon.calls ++
        [Call.set_from_icon_name "battery-full".toList,
          Call.set_tooltip_text "100% (Fully charged)".toList] ∧
      data1.status_icon.icon_name = some "battery-full".toList ∧
      data1.status_icon.tooltip_text = some "100% (Fully charged)".toList ∧
      on_properties_changed [(PROPERTY_PERCENTAGE, GVariant.double (.finite 55))] data1
        = some data2 ∧
      data2.status_icon.calls = data1.status_icon.calls ++
        [Call.set_tooltip_text "55% (Fully charged)".toList] ∧
      data2.status_icon.tooltip_text = some "55% (Fully charged)".toList ∧
      data2.state_string = data1.state_string ∧
      data2.state_string = "Fully charged".toList ∧
      data2.status_icon.icon_name = some "battery-full".toList) ∧
    (∀ (connection : Option GDBusProxy) (data0 data : applet) (proxy : GDBusProxy)
      (d : gdouble) (p : Nat),
      init connection data0 = some (some proxy, data) → decodePercentage d = some p →
      ∃ data2, on_properties_changed [(PROPERTY_PERCENTAGE, GVariant.double d)] data
          = some data2 ∧
        data2.status_icon.calls = data.status_icon.calls ++
          [Call.set_tooltip_text
            ((Nat.repr p).toList ++ "% (".toList ++ data.state_string ++ ")".toList)] ∧
        data2.percentage = p ∧
        data2.state_string = data.state_string ∧
        data2.status_icon.icon_name = data.status_icon.icon_name) := by
  refine ⟨?_, ?_⟩
  · intro data
    have h55 := percentage_entry
      { status_icon := gtk_status_icon_set_tooltip_text
          (gtk_status_icon_set_from_icon_name data.status_icon "battery-full".toList)
          "100% (Fully charged)".toList
        state_string := "Fully charged".toList
        percentage := 100 } 4 (.finite 55) 55 rfl decodePercentage_55
    have ht : tooltipSpec 55 "Fully charged".toList = "55% (Fully charged)".toList := by decide
    simp only [ht] at h55
    refine ⟨_, _, init_seed_proxy data, ?_, rfl, rfl, h55, ?_, rfl, rfl, rfl, rfl⟩
    · simp [gtk_status_icon_set_tooltip_text, gtk_status_icon_set_from_icon_name]
    · simp [gtk_status_icon_set_tooltip_text, gtk_status_icon_set_from_icon_name]
  · intro connection data0 data proxy d p hinit hd
    obtain ⟨_, state, -, hl, -⟩ := init_seeded connection data0 data proxy hinit
    exact ⟨_, percentage_entry data state d p hl hd, rfl, rfl, rfl, rfl⟩

/-- C8 on the example seed and the value 55.0: the one call is the tooltip of 55 and
the label `Fully charged` the seed stored. -/
theorem seed_then_percentage_change_witness :
    init (some seed_proxy)
      { status_icon := gtk_status_icon_new, state_string := [], percentage := 0 }
      = some (some seed_proxy,
        { status_icon := gtk_status_icon_set_tooltip_text
            (gtk_status_icon_set_from_icon_name gtk_status_icon_new "battery-full".toList)
            "100% (Fully charged)".toList
          state_string := "Fully charged".toList
          percentage := 100 }) ∧
    decodePercentage (.finite 55) = some 55 ∧
    ∃ data2, on_properties_changed [(PROPERTY_PERCENTAGE, GVariant.double (.finite 55))]
        { status_icon := gtk_status_icon_set_tooltip_text
            (gtk_status_icon_set_from_icon_name gtk_status_icon_new "battery-full".toList)
            "100% (Fully charged)".toList
          state_string := "Fully charged".toList
          percentage := 100 } = some data2 ∧
      data2.status_icon.calls =
        [Call.set_from_icon_name "battery-full".toList,
          Call.set_tooltip_text "100% (Fully charged)".toList] ++
        [Call.set_tooltip_text
          ((Nat.repr 55).toList ++ "% (".toList ++ "Fully charged".toList ++ ")".toList)] ∧
      data2.percentage = 55 ∧
      data2.state_string = "Fully charged".toList ∧
      data2.status_icon.icon_name = some "battery-full".toList :=
  ⟨init_seed_proxy _, decodePercentage_55,
    seed_then_percentage_change.2 (some seed_proxy) _ _ seed_proxy (.finite 55) 55
      (init_seed_proxy { status_icon := gtk_status_icon_new, state_string := [], percentage := 0 })
      decodePercentage_55⟩

end Batti
